import Mathlib

/-!
Shallow embedding of `name.py` (procedural character generation: names with a
comparison permutation, weighted stats with an outlier-compression rule, a
two-axis alignment, and a validated need taxonomy), together with theorems
settling the specification claims about it.

Randomness is embedded by passing each random draw as an explicit oracle
argument: `random.choices` on the `3..18` table becomes a `raw` value
(supported on `3..18`), `random.randint(0, 4*len(STAT_TYPES)-2)` becomes a
`roll` value (supported on `0..30`).
-/

/- ## Name -/

/-- The `Name` dataclass: display-order `parts` plus the comparison
permutation `sort_order` (a Python tuple, embedded as a list). -/
structure Name where
  parts : List String
  sort_order : List Nat
deriving DecidableEq

/-- Class variable `Name.seperator` (source spelling), the display join
string. -/
def Name.seperator : String := " "

/-- Class variable `Name.case_sensitive`; the source default is `False`. -/
def Name.case_sensitive : Bool := false

/-- Python `str.lower` over the string's characters.  `Char.toLower` applies
the ASCII case mapping, which covers every character this program compares. -/
def py_lower (s : String) : String := ⟨s.data.map Char.toLower⟩

/-- Python `str.upper` over the string's characters (ASCII case mapping). -/
def py_upper (s : String) : String := ⟨s.data.map Char.toUpper⟩

/-- `Name.__init__`: an omitted `sort_order` defaults to
`tuple(range(0, len(parts)))`; a supplied one is stored exactly as given,
with no validation of its length or contents. -/
def Name.init (parts : List String) (sort_order : Option (List Nat)) : Name :=
  match sort_order with
  | none => ⟨parts, List.range parts.length⟩
  | some so => ⟨parts, so⟩

/-- `Name._sort_str`: the parts concatenated in `sort_order` sequence
(`"".join([x for x in self.parts[index]])` re-joins the characters of
`parts[index]`, i.e. is `parts[index]` itself), lower-cased unless the
class-wide case-sensitivity flag is set.  Python raises `IndexError` on an
out-of-range index; the embedding totalises that case with `""` (every Name
the program builds keeps indices in range, where the two agree).  The
process-wide flag is passed explicitly. -/
def Name.sort_str (cs : Bool) (n : Name) : String :=
  let ret := n.sort_order.foldl (fun acc index => acc ++ n.parts.getD index "") ""
  if cs then ret else py_lower ret

/-- `Name.__eq__` restricted to two Names: equality of the sort strings. -/
def Name.eqName (cs : Bool) (a b : Name) : Bool :=
  a.sort_str cs == b.sort_str cs

/-- `Name.__lt__` restricted to two Names: `<` on the sort strings (Python
string comparison is lexicographic on code points, as is Lean's). -/
def Name.ltName (cs : Bool) (a b : Name) : Bool :=
  decide (a.sort_str cs < b.sort_str cs)

/-- A Python object as far as the comparison methods inspect it: a `Name`, or
one of the non-`Name` shapes of value the program could hand them. -/
inductive PyObject where
  | nameObj : Name → PyObject
  | intObj : Int → PyObject
  | strObj : String → PyObject
  | noneObj : PyObject
deriving DecidableEq

/-- `Name.__eq__`: `return NotImplemented` (embedded as `none`) when the
argument is not a `Name` instance, otherwise the sort-string comparison. -/
def Name.eqMethod (cs : Bool) (self : Name) (other : PyObject) : Option Bool :=
  match other with
  | .nameObj m => some (Name.eqName cs self m)
  | _ => none

/-- `Name.__lt__`: `return NotImplemented` (embedded as `none`) when the
argument is not a `Name` instance, otherwise the sort-string comparison. -/
def Name.ltMethod (cs : Bool) (self : Name) (other : PyObject) : Option Bool :=
  match other with
  | .nameObj m => some (Name.ltName cs self m)
  | _ => none

/-- `Name.__str__`: the parts in original order joined by the class-wide
separator. -/
def Name.str (n : Name) : String :=
  String.intercalate Name.seperator n.parts

/-- The invariant the specification states for `Name`: matching lengths and
`sort_order` a permutation of (bijection onto) the part indices. -/
def name_invariant (n : Name) : Prop :=
  n.sort_order.length = n.parts.length
    ∧ n.sort_order.Perm (List.range n.parts.length)

/- ## Needs -/

/-- `Maslow_Need.TYPES`: the closed set of need categories. -/
inductive Maslow_Need.TYPES where
  | PHYSIOLOGICAL
  | SAFETY
  | BELONGING
  | ESTEEM
  | COGNITIVE
  | AESTHETIC
  | SELFACTUALIZATION
  | TRANSCENDENCE
deriving DecidableEq

/-- A need weight: a float, or the literal string sentinel `"DEFAULT"`. -/
inductive Weight where
  | DEFAULT : Weight
  | val : Float → Weight

/-- The `Need` dataclass (field order as inherited: `type`, `weight`, then
`subtype`). -/
structure Need where
  type : Maslow_Need.TYPES
  weight : Weight
  subtype : String

/-- `NeedFactory.registered_needs`: a dict from category to the uppercased
tuple of allowed subtypes; a category never registered is absent (`none`). -/
def Registry : Type := Maslow_Need.TYPES → Option (List String)

/-- `NeedFactory.register_need`: store the upper-cased subtype tuple for the
category, overwriting any prior registration. -/
def register_need (reg : Registry) (name : Maslow_Need.TYPES)
    (subtypes : List String) : Registry :=
  fun t => if t = name then some (subtypes.map py_upper) else reg t

/-- How `create_need` fails: the `KeyError` Python raises at the subscript
`self.registered_needs[type]` when the category was never registered, or the
explicit `ValueError` raised for a subtype outside the registered tuple. -/
inductive CreateError where
  | keyError : CreateError
  | valueError : CreateError
deriving DecidableEq

/-- `NeedFactory.create_need` (default `weight="DEFAULT"` is passed
explicitly): upper-case the subtype, subscript the registry (raising
`KeyError` when the category is absent), raise `ValueError` when the
upper-cased subtype is not in the tuple, otherwise build the `Need`. -/
def create_need (reg : Registry) (type : Maslow_Need.TYPES) (subtype : String)
    (weight : Weight) : Except CreateError Need :=
  let sub := py_upper subtype
  match reg type with
  | none => .error .keyError
  | some allowed =>
      if sub ∈ allowed then .ok ⟨type, weight, sub⟩ else .error .valueError

/-- The dict before any registration (`registered_needs = dict()`). -/
def empty_registry : Registry := fun _ => none

/-- The state of `needFactory.registered_needs` after the eight module-level
`register_need` calls. -/
def needFactory_registered_needs : Registry :=
  register_need
    (register_need
      (register_need
        (register_need
          (register_need
            (register_need
              (register_need
                (register_need empty_registry
                  .PHYSIOLOGICAL ["Food", "Drink", "Shelter", "Climate", "Sleep"])
                .SAFETY ["Security", "Order", "Stability"])
              .BELONGING ["Friendship", "Trust", "Affiliating"])
            .ESTEEM ["Achievement", "Mastery", "Status", "Prestige"])
          .COGNITIVE ["Knowledge", "Curiosity"])
        .AESTHETIC ["Art", "Music"])
      .SELFACTUALIZATION ["Growth"])
    .TRANSCENDENCE ["Spiritual", "Religious", "Scientific"]

/- ## Weight tables and stats -/

/-- Table construction as the source performs it: `class WEIGHTS` binds each
table as a plain pair of a range tuple and a weight tuple.  There is no
constructor logic and no validation anywhere in the module, so construction
cannot fail. -/
def weights_table (rng : Nat × Nat) (ws : List Float) :
    (Nat × Nat) × List Float :=
  (rng, ws)

/-- `WEIGHTS.NORMAL_1_10`. -/
def WEIGHTS.NORMAL_1_10 : (Nat × Nat) × List Float :=
  weights_table (1, 10) [1, 2, 2.62, 4.24, 6.85, 6.85, 4.24, 2.62, 2, 1]

/-- `WEIGHTS.NORMAL_3_18`. -/
def WEIGHTS.NORMAL_3_18 : (Nat × Nat) × List Float :=
  weights_table (3, 18)
    [0.46, 1.39, 2.78, 4.63, 6.94, 9.72, 11.57, 12.50,
     12.50, 11.57, 9.72, 6.94, 4.63, 2.78, 1.39, 0.46]

/-- The number of values an inclusive range tuple `(lo, hi)` covers. -/
def range_size (rng : Nat × Nat) : Nat := rng.2 - rng.1 + 1

/-- `compress_range(num) = int(math.sqrt(num * 15))`.  `int` truncates toward
zero; on the nonnegative inputs this program produces (at most `18`, radicand
at most `270`) the truncated correctly-rounded double square root coincides
with the integer square root, so the embedding is `Nat.sqrt`. -/
def compress_range (num : Nat) : Nat := Nat.sqrt (num * 15)

/-- `Person.STAT_TYPES`: the fixed enumeration of stat types. -/
inductive Person.STAT_TYPES where
  | STRENGTH
  | DEXTERITY
  | CONSTITUTION
  | INTELLIGENCE
  | WISDOM
  | CHARISMA
  | PREDICTABILITY
  | LAWFULLNESS
deriving DecidableEq

/-- The iteration order of `Person.STAT_TYPES` (declaration order, as Python
enums iterate). -/
def Person.stat_types_list : List Person.STAT_TYPES :=
  [.STRENGTH, .DEXTERITY, .CONSTITUTION, .INTELLIGENCE,
   .WISDOM, .CHARISMA, .PREDICTABILITY, .LAWFULLNESS]

/-- Python truthiness of the bare enum member `Person.STAT_TYPES.LAWFULLNESS`
used as an operand of `and`: enum members define neither `__bool__` nor
`__len__`, so the object is truthy. -/
def LAWFULLNESS_truthy : Bool := true

/-- The guard of the compression branch in `Person.__gen_stat_dict`, read
with Python's precedence `A or (B and C)`:
`stat != STAT_TYPES.PREDICTABILITY or (STAT_TYPES.LAWFULLNESS and
random.randint(0, 4 * len(STAT_TYPES.__members__) - 2) == 0)`.
The `randint` draw enters as the oracle `roll`; in the source the call only
happens when the left disjunct is false (short-circuit), which does not
change the guard's value. -/
def compress_gate (stat : Person.STAT_TYPES) (roll : Nat) : Bool :=
  (stat != .PREDICTABILITY) || (LAWFULLNESS_truthy && (roll == 0))

/-- One iteration of the loop in `Person.__gen_stat_dict` for `stat`: `raw`
is the value drawn by `random.choices` from the `3..18` table and `roll` the
value of the gating `randint`; the entry is the raw draw, replaced by its
compression when the guard holds. -/
def gen_stat_value (stat : Person.STAT_TYPES) (raw roll : Nat) : Nat :=
  if compress_gate stat roll then compress_range raw else raw

/-- `Person.__gen_stat_dict` as the association list it builds: one entry per
enum member in iteration order, the random draws entering as oracles indexed
by stat. -/
def gen_stat_dict (raw roll : Person.STAT_TYPES → Nat) :
    List (Person.STAT_TYPES × Nat) :=
  Person.stat_types_list.map (fun s => (s, gen_stat_value s (raw s) (roll s)))

/-- The inclusive upper bound of the gating roll,
`4 * len(Person.STAT_TYPES.__members__) - 2`. -/
def roll_upper : Nat := 4 * Person.stat_types_list.length - 2

/-- Lookup `self.stats[stat]` on the association list `__gen_stat_dict`
builds.  Python would raise `KeyError` on a missing key; the generated dict
always carries all eight keys, so the `0` fallback is unreachable there. -/
def stats_get (stats : List (Person.STAT_TYPES × Nat))
    (k : Person.STAT_TYPES) : Nat :=
  match stats.find? (fun p => p.1 == k) with
  | some p => p.2
  | none => 0

/-- `Person.__get_alignment` as a function of the `stats` mapping (a Python
`Dict[STAT_TYPES, int]`; the construction keeps every key present, so the
mapping is total): the PREDICTABILITY stat feeds the law-chaos axis and the
LAWFULLNESS stat the good-evil axis, with thresholds at 13 and 8. -/
def get_alignment (stats : Person.STAT_TYPES → Int) : String × String :=
  let pred_stat := stats .PREDICTABILITY
  let law_stat := stats .LAWFULLNESS
  let pred : String :=
    if pred_stat ≥ 13 then "NEUTRAL"
    else if pred_stat ≥ 8 then "LAWFUL"
    else "CHAOTIC"
  let law : String :=
    if law_stat ≥ 13 then "GOOD"
    else if law_stat ≥ 8 then "NEUTRAL"
    else "EVIL"
  (pred, law)

/- ## Person and assembly -/

/-- The `Relationship` dataclass (carried by `Person`, not otherwise used by
the generation path). -/
inductive RelationshipType where
  | Parent | Child | Sibling | Pibling | Nibling | Cousin | Friend
deriving DecidableEq

/-- The `Relationship` record. -/
structure Relationship where
  type : RelationshipType
  weight : Float
  rel_from : String
  rel_to : String

/-- The `Person` dataclass: `demands` is the `defaultdict(list)` embedded as
a total function with `[]` for absent categories. -/
structure Person where
  name : Name
  relationships : List Relationship
  demands : Maslow_Need.TYPES → List Need
  stats : List (Person.STAT_TYPES × Nat)
  alignment : String × String

/-- The `defaultdict(list)` initial value of `demands`. -/
def empty_demands : Maslow_Need.TYPES → List Need := fun _ => []

/-- `p.demands[t].append(n)` on the defaultdict. -/
def demands_append (d : Maslow_Need.TYPES → List Need) (t : Maslow_Need.TYPES)
    (n : Need) : Maslow_Need.TYPES → List Need :=
  fun t2 => if t2 = t then d t2 ++ [n] else d t2

/-- `Person(name=nm)` with the dataclass default factories and
`__post_init__`: fresh stats from `__gen_stat_dict` (randomness as oracles),
empty relationship list and demands, and the alignment derived from the
stats. -/
def Person.mkDefault (nm : Name) (raw roll : Person.STAT_TYPES → Nat) :
    Person :=
  let stats := gen_stat_dict raw roll
  { name := nm
    relationships := []
    demands := empty_demands
    stats := stats
    alignment := get_alignment (fun s => (stats_get stats s : Int)) }

/-- The per-person body of the module-level assembly loop: construct the
Person, then append the two baseline PHYSIOLOGICAL needs built by
`needFactory.create_need` (either call could in principle raise, which would
propagate). -/
def assemble_person (nm : Name) (raw roll : Person.STAT_TYPES → Nat) :
    Except CreateError Person :=
  let p := Person.mkDefault nm raw roll
  match create_need needFactory_registered_needs .PHYSIOLOGICAL "Food" .DEFAULT with
  | .error e => .error e
  | .ok food =>
    match create_need needFactory_registered_needs .PHYSIOLOGICAL "Drink" .DEFAULT with
    | .error e => .error e
    | .ok drink =>
        .ok { p with
              demands := demands_append
                (demands_append p.demands .PHYSIOLOGICAL food)
                .PHYSIOLOGICAL drink }

/- ## Shared helper lemmas -/

/-- `compress_range 3 = 6`: the integer square root of `45`. -/
lemma compress_range_three : compress_range 3 = 6 :=
  (Nat.eq_sqrt.mpr (by decide)).symm

/-- `compress_range 18 = 16`: the integer square root of `270`. -/
lemma compress_range_eighteen : compress_range 18 = 16 :=
  (Nat.eq_sqrt.mpr (by decide)).symm

/-- `compress_range` is monotone. -/
lemma compress_range_mono {m n : Nat} (h : m ≤ n) :
    compress_range m ≤ compress_range n :=
  Nat.sqrt_le_sqrt (Nat.mul_le_mul_right 15 h)

/-- On the sampled range `3..18`, compression lands in `6..16`. -/
lemma compress_range_bounds {n : Nat} (h3 : 3 ≤ n) (h18 : n ≤ 18) :
    6 ≤ compress_range n ∧ compress_range n ≤ 16 :=
  ⟨compress_range_three ▸ compress_range_mono h3,
   compress_range_eighteen ▸ compress_range_mono h18⟩

/-- For any stat other than PREDICTABILITY the guard's left disjunct is true,
so the entry is compressed whatever the roll. -/
lemma gen_stat_value_ne_pred {s : Person.STAT_TYPES}
    (hs : s ≠ .PREDICTABILITY) (raw roll : Nat) :
    gen_stat_value s raw roll = compress_range raw := by
  have hgate : compress_gate s roll = true := by
    unfold compress_gate
    cases s <;> simp_all
  simp [gen_stat_value, hgate]

/-- For PREDICTABILITY the guard reduces to the roll hitting zero. -/
lemma gen_stat_value_pred (raw roll : Nat) :
    gen_stat_value .PREDICTABILITY raw roll
      = if roll = 0 then compress_range raw else raw := by
  by_cases h : roll = 0 <;>
    simp [gen_stat_value, compress_gate, LAWFULLNESS_truthy, h]

/-- Whatever the guard decides, an in-range raw draw yields an in-range
entry. -/
lemma gen_stat_value_in_range (s : Person.STAT_TYPES) {raw : Nat}
    (roll : Nat) (h3 : 3 ≤ raw) (h18 : raw ≤ 18) :
    3 ≤ gen_stat_value s raw roll ∧ gen_stat_value s raw roll ≤ 18 := by
  unfold gen_stat_value
  split
  · have hb := compress_range_bounds h3 h18
    exact ⟨le_trans (by norm_num) hb.1, le_trans hb.2 (by norm_num)⟩
  · exact ⟨h3, h18⟩

/- ## Claim theorems -/

/-- Claim C5 (confirmed): for every `n` in `3..18`, `compress_range n` is the
floor of the square root of `n * 15` (characterised by the bracketing
consecutive squares), is monotone below `n` on that range, and maps the
endpoints `3 ↦ 6` and `18 ↦ 16`. -/
theorem C5_compress_range_floor_sqrt (m n : Nat) (h3 : 3 ≤ n) (h18 : n ≤ 18)
    (hm : m ≤ n) :
    (compress_range n * compress_range n ≤ n * 15
      ∧ n * 15 < (compress_range n + 1) * (compress_range n + 1))
    ∧ compress_range m ≤ compress_range n
    ∧ (6 ≤ compress_range n ∧ compress_range n ≤ 16)
    ∧ compress_range 3 = 6
    ∧ compress_range 18 = 16 :=
  ⟨⟨Nat.sqrt_le (n * 15), Nat.lt_succ_sqrt (n * 15)⟩,
   compress_range_mono hm, compress_range_bounds h3 h18,
   compress_range_three, compress_range_eighteen⟩

/-- Witness for C5, at `m = 3`, `n = 18`. -/
theorem C5_witness :
    (compress_range 18 * compress_range 18 ≤ 18 * 15
      ∧ 18 * 15 < (compress_range 18 + 1) * (compress_range 18 + 1))
    ∧ compress_range 3 ≤ compress_range 18
    ∧ (6 ≤ compress_range 18 ∧ compress_range 18 ≤ 16)
    ∧ compress_range 3 = 6
    ∧ compress_range 18 = 16 :=
  C5_compress_range_floor_sqrt 3 18 (by norm_num) (by norm_num) (by norm_num)

/-- Claim C4 (confirmed): alignment derivation reads only the PREDICTABILITY
and LAWFULLNESS stats; `>=13 / 8..12 / <8` on PREDICTABILITY give
NEUTRAL / LAWFUL / CHAOTIC on the law-chaos axis, and on LAWFULLNESS give
GOOD / NEUTRAL / EVIL on the good-evil axis; the result is the pair of the
two labels. -/
theorem C4_alignment_thresholds (stats : Person.STAT_TYPES → Int) :
    (13 ≤ stats .PREDICTABILITY → (get_alignment stats).1 = "NEUTRAL")
    ∧ (8 ≤ stats .PREDICTABILITY → stats .PREDICTABILITY ≤ 12 →
        (get_alignment stats).1 = "LAWFUL")
    ∧ (stats .PREDICTABILITY < 8 → (get_alignment stats).1 = "CHAOTIC")
    ∧ (13 ≤ stats .LAWFULLNESS → (get_alignment stats).2 = "GOOD")
    ∧ (8 ≤ stats .LAWFULLNESS → stats .LAWFULLNESS ≤ 12 →
        (get_alignment stats).2 = "NEUTRAL")
    ∧ (stats .LAWFULLNESS < 8 → (get_alignment stats).2 = "EVIL")
    ∧ (∀ stats2 : Person.STAT_TYPES → Int,
        stats .PREDICTABILITY = stats2 .PREDICTABILITY →
        stats .LAWFULLNESS = stats2 .LAWFULLNESS →
        get_alignment stats = get_alignment stats2) := by
  refine ⟨?_, ?_, ?_, ?_, ?_, ?_, ?_⟩
  · intro h
    simp [get_alignment, h]
  · intro h1 h2
    have hno : ¬ (13 ≤ stats .PREDICTABILITY) := by omega
    simp [get_alignment, hno, h1]
  · intro h
    have h1 : ¬ (13 ≤ stats .PREDICTABILITY) := by omega
    have h2 : ¬ (8 ≤ stats .PREDICTABILITY) := by omega
    simp [get_alignment, h1, h2]
  · intro h
    simp [get_alignment, h]
  · intro h1 h2
    have hno : ¬ (13 ≤ stats .LAWFULLNESS) := by omega
    simp [get_alignment, hno, h1]
  · intro h
    have h1 : ¬ (13 ≤ stats .LAWFULLNESS) := by omega
    have h2 : ¬ (8 ≤ stats .LAWFULLNESS) := by omega
    simp [get_alignment, h1, h2]
  · intro stats2 h1 h2
    simp [get_alignment, h1, h2]

/-- Witness for C4, at the constant-13 stats mapping. -/
theorem C4_witness :
    (get_alignment (fun _ => (13 : Int))).1 = "NEUTRAL"
    ∧ (get_alignment (fun _ => (13 : Int))).2 = "GOOD" :=
  ⟨(C4_alignment_thresholds (fun _ => (13 : Int))).1 (by norm_num),
   (C4_alignment_thresholds (fun _ => (13 : Int))).2.2.2.1 (by norm_num)⟩

/-- Claim C1 counterexample: for the STRENGTH stat with a gating roll of `5`
(which did not hit zero) the raw draw `18` is still replaced by its
compression `16` — the guard's left disjunct `stat != PREDICTABILITY` already
fires, so compression is not gated by the roll there, refuting "replaced
exactly when the roll hits zero, for all stat types alike". -/
theorem C1_counterexample :
    gen_stat_value .STRENGTH 18 5 = 16 ∧ gen_stat_value .STRENGTH 18 5 ≠ 18 := by
  have h : gen_stat_value .STRENGTH 18 5 = compress_range 18 :=
    gen_stat_value_ne_pred (by decide) 18 5
  rw [h, compress_range_eighteen]
  exact ⟨rfl, by norm_num⟩

/-- Claim C1 (amended): with Python's precedence the guard is
`stat != PREDICTABILITY or (truthy LAWFULLNESS and roll == 0)`, so every stat
type other than PREDICTABILITY is compressed unconditionally; only for
PREDICTABILITY is compression gated by the roll hitting zero, and the roll
`randint(0, 4*N-2)` ranges over the `4*N-1 = 31` values `0..30`, so that
probability is `1/31` (not `1/(4*N-2) = 1/30`). -/
theorem C1_amended_gating (s : Person.STAT_TYPES) (raw roll : Nat)
    (hs : s ≠ .PREDICTABILITY) :
    gen_stat_value s raw roll = compress_range raw
    ∧ (gen_stat_value .PREDICTABILITY raw roll
        = if roll = 0 then compress_range raw else raw)
    ∧ roll_upper = 30
    ∧ (Finset.Icc 0 roll_upper).card = 31
    ∧ ((Finset.Icc 0 roll_upper).filter (fun r => r = 0)).card = 1 := by
  refine ⟨gen_stat_value_ne_pred hs raw roll, gen_stat_value_pred raw roll,
    rfl, ?_, ?_⟩ <;> decide

/-- Witness for C1 (amended), at STRENGTH, raw `18`, roll `5`. -/
theorem C1_amended_witness :
    gen_stat_value Person.STAT_TYPES.STRENGTH 18 5 = compress_range 18
    ∧ (gen_stat_value .PREDICTABILITY 18 5
        = if (5 : Nat) = 0 then compress_range 18 else 18)
    ∧ roll_upper = 30
    ∧ (Finset.Icc 0 roll_upper).card = 31
    ∧ ((Finset.Icc 0 roll_upper).filter (fun r => r = 0)).card = 1 :=
  C1_amended_gating .STRENGTH 18 5 (by decide)

/-- Claim C10 (confirmed): under the default stat generator every stat type
other than PREDICTABILITY has its sampled value passed through
`compress_range`, landing in `6..16`; PREDICTABILITY alone can keep a raw
extreme value in `3..5` or `17..18` (kept raw whenever the roll is nonzero,
shown at raw `18` and raw `3` with roll `1`). -/
theorem C10_only_predictability_extreme (s : Person.STAT_TYPES)
    (raw roll : Nat) (hs : s ≠ .PREDICTABILITY) (h3 : 3 ≤ raw)
    (h18 : raw ≤ 18) :
    gen_stat_value s raw roll = compress_range raw
    ∧ (6 ≤ gen_stat_value s raw roll ∧ gen_stat_value s raw roll ≤ 16)
    ∧ gen_stat_value .PREDICTABILITY 18 1 = 18
    ∧ gen_stat_value .PREDICTABILITY 3 1 = 3 := by
  have h := gen_stat_value_ne_pred hs raw roll
  refine ⟨h, h ▸ compress_range_bounds h3 h18, ?_, ?_⟩
  · rw [gen_stat_value_pred 18 1]
    norm_num
  · rw [gen_stat_value_pred 3 1]
    norm_num

/-- Witness for C10, at STRENGTH, raw `18`, roll `1`. -/
theorem C10_witness :
    gen_stat_value Person.STAT_TYPES.STRENGTH 18 1 = compress_range 18
    ∧ (6 ≤ gen_stat_value Person.STAT_TYPES.STRENGTH 18 1
        ∧ gen_stat_value Person.STAT_TYPES.STRENGTH 18 1 ≤ 16)
    ∧ gen_stat_value .PREDICTABILITY 18 1 = 18
    ∧ gen_stat_value .PREDICTABILITY 3 1 = 3 :=
  C10_only_predictability_extreme .STRENGTH 18 1 (by decide) (by norm_num)
    (by norm_num)

/-- Claim C9 counterexample: the source performs no construction-time
validation at all — `class WEIGHTS` binds plain tuples, so a table whose
single weight does not match its range size `16` is constructed without any
error, refuting "fails fast with a construction error whenever the weight-list
length does not equal the range size". -/
theorem C9_counterexample :
    weights_table (3, 18) [0.5] = ((3, 18), [0.5])
    ∧ (weights_table (3, 18) [0.5]).2.length
        ≠ range_size (weights_table (3, 18) [0.5]).1 :=
  ⟨rfl, by decide⟩

/-- Claim C9 (amended): construction is plain tuple formation with no
length check (it never fails); the two tables the module actually defines do
satisfy weight-count = range-size, so a mismatch never arises in this program
— it would only surface later, at sampling time inside `random.choices`. -/
theorem C9_amended_tables :
    WEIGHTS.NORMAL_1_10 = weights_table (1, 10) WEIGHTS.NORMAL_1_10.2
    ∧ WEIGHTS.NORMAL_3_18 = weights_table (3, 18) WEIGHTS.NORMAL_3_18.2
    ∧ WEIGHTS.NORMAL_1_10.2.length = range_size WEIGHTS.NORMAL_1_10.1
    ∧ WEIGHTS.NORMAL_3_18.2.length = range_size WEIGHTS.NORMAL_3_18.1
    ∧ (∀ (rng : Nat × Nat) (ws : List Float),
        weights_table rng ws = (rng, ws)) :=
  ⟨rfl, rfl, rfl, rfl, fun _ _ => rfl⟩

/-- Claim C2 counterexample: `Name.__init__` stores a supplied `sort_order`
without any validation, so the Name built from two parts and the supplied
tuple `(0,)` violates the length/permutation invariant. -/
theorem C2_counterexample :
    ¬ name_invariant (Name.init ["a", "b"] (some [0])) := by
  unfold name_invariant Name.init
  decide

/-- Claim C2 (amended): when `sort_order` is omitted the default
`tuple(range(0, len(parts)))` establishes the invariant; when it is supplied
the constructor stores it unchecked, so the invariant holds exactly when the
caller's tuple is itself a permutation of the part indices. -/
theorem C2_invariant_default_only (parts : List String) (so : List Nat) :
    name_invariant (Name.init parts none)
    ∧ (name_invariant (Name.init parts (some so))
        ↔ (so.length = parts.length
            ∧ so.Perm (List.range parts.length))) :=
  ⟨⟨List.length_range parts.length, List.Perm.refl _⟩, Iff.rfl⟩

/-- Witness for C2 (amended), at `parts = ["a", "b"]`, `so = [1, 0]`. -/
theorem C2_witness :
    name_invariant (Name.init ["a", "b"] none)
    ∧ (name_invariant (Name.init ["a", "b"] (some [1, 0]))
        ↔ (([1, 0] : List Nat).length = (["a", "b"] : List String).length
            ∧ ([1, 0] : List Nat).Perm (List.range (["a", "b"] : List String).length))) :=
  C2_invariant_default_only ["a", "b"] [1, 0]

/-- Claim C3 counterexample: a category never registered fails at the
registry subscript with a `KeyError`, while an invalid subtype of a
registered category fails with the explicit `ValueError` — the two failures
are not the same kind of validation error. -/
theorem C3_counterexample :
    create_need empty_registry .PHYSIOLOGICAL "Food" .DEFAULT
        = .error .keyError
    ∧ create_need needFactory_registered_needs .PHYSIOLOGICAL "Candy" .DEFAULT
        = .error .valueError
    ∧ CreateError.keyError ≠ CreateError.valueError :=
  ⟨rfl, rfl, by decide⟩

/-- Claim C3 (amended): `create_need` upper-cases the subtype and, for a
registered category, returns the new `Need` carrying the upper-cased subtype
when it is in the registered tuple and a `ValueError` otherwise; for a
category never registered it instead fails with a `KeyError` at the registry
lookup — a different error kind from the subtype validation error. -/
theorem C3_create_need_validation (reg : Registry) (t : Maslow_Need.TYPES)
    (allowed : List String) (s : String) (w : Weight)
    (hreg : reg t = some allowed) :
    (create_need reg t s w
        = if py_upper s ∈ allowed then .ok ⟨t, w, py_upper s⟩
          else .error .valueError)
    ∧ (∀ (reg2 : Registry) (t2 : Maslow_Need.TYPES) (s2 : String)
          (w2 : Weight), reg2 t2 = none →
            create_need reg2 t2 s2 w2 = .error .keyError) := by
  constructor
  · unfold create_need
    rw [hreg]
  · intro reg2 t2 s2 w2 h2
    unfold create_need
    rw [h2]

/-- Witness for C3 (amended): `create_need(PHYSIOLOGICAL, "drink")` on the
module registry returns the Need with subtype `"DRINK"`. -/
theorem C3_witness :
    create_need needFactory_registered_needs .PHYSIOLOGICAL "drink" .DEFAULT
      = .ok ⟨.PHYSIOLOGICAL, .DEFAULT, "DRINK"⟩ := by
  have h := (C3_create_need_validation needFactory_registered_needs
    .PHYSIOLOGICAL ["FOOD", "DRINK", "SHELTER", "CLIMATE", "SLEEP"]
    "drink" .DEFAULT rfl).1
  rw [h]
  rfl

/-- Claim C7 (confirmed): both comparison methods answer a non-`Name`
argument with the `NotImplemented` sentinel (embedded as `none`) — the
"not comparable" signal — and in particular with no boolean result at all. -/
theorem C7_non_name_not_comparable (cs : Bool) (n : Name) (o : PyObject)
    (h : ∀ m : Name, o ≠ .nameObj m) :
    Name.eqMethod cs n o = none
    ∧ Name.ltMethod cs n o = none
    ∧ (∀ b : Bool, Name.eqMethod cs n o ≠ some b)
    ∧ (∀ b : Bool, Name.ltMethod cs n o ≠ some b) := by
  cases o with
  | nameObj m2 => exact absurd rfl (h m2)
  | intObj i =>
      exact ⟨rfl, rfl, fun b hb => Option.noConfusion hb,
        fun b hb => Option.noConfusion hb⟩
  | strObj s =>
      exact ⟨rfl, rfl, fun b hb => Option.noConfusion hb,
        fun b hb => Option.noConfusion hb⟩
  | noneObj =>
      exact ⟨rfl, rfl, fun b hb => Option.noConfusion hb,
        fun b hb => Option.noConfusion hb⟩

/-- Witness for C7, comparing a Name against the integer `5`. -/
theorem C7_witness :
    Name.eqMethod false ⟨["a"], [0]⟩ (.intObj 5) = none
    ∧ Name.ltMethod false ⟨["a"], [0]⟩ (.intObj 5) = none
    ∧ (∀ b : Bool, Name.eqMethod false ⟨["a"], [0]⟩ (.intObj 5) ≠ some b)
    ∧ (∀ b : Bool, Name.ltMethod false ⟨["a"], [0]⟩ (.intObj 5) ≠ some b) :=
  C7_non_name_not_comparable false ⟨["a"], [0]⟩ (.intObj 5)
    (fun _ hm => PyObject.noConfusion hm)

/-- Claim C6 (confirmed): Name equality and order are exactly the comparisons
of the derived sort key (lower-cased unless the class flag is set); on that
key the order is reflexive, transitive, antisymmetric up to equal keys, and
total; with the default flag `Name(["Ana"]) == Name(["ana"])`; rendering
always joins the parts in original order with the shared separator,
independent of `sort_order`. -/
theorem C6_name_total_order (cs : Bool) (a b c : Name) :
    (Name.eqName cs a b = true ↔ Name.sort_str cs a = Name.sort_str cs b)
    ∧ (Name.ltName cs a b = true ↔ Name.sort_str cs a < Name.sort_str cs b)
    ∧ Name.eqName cs a a = true
    ∧ (Name.ltName cs a b = true → Name.ltName cs b c = true →
        Name.ltName cs a c = true)
    ∧ (Name.ltName cs a b = false → Name.ltName cs b a = false →
        Name.eqName cs a b = true)
    ∧ (Name.ltName cs a b = true ∨ Name.eqName cs a b = true
        ∨ Name.ltName cs b a = true)
    ∧ Name.eqName Name.case_sensitive ⟨["Ana"], [0]⟩ ⟨["ana"], [0]⟩ = true
    ∧ (∀ (parts : List String) (so1 so2 : List Nat),
        Name.str ⟨parts, so1⟩ = Name.str ⟨parts, so2⟩)
    ∧ Name.str ⟨["Ana", "Bc"], [1, 0]⟩ = "Ana Bc" := by
  refine ⟨beq_iff_eq, decide_eq_true_iff, ?_, ?_, ?_, ?_, ?_,
    fun parts so1 so2 => rfl, rfl⟩
  · simp [Name.eqName]
  · intro h1 h2
    simp only [Name.ltName, decide_eq_true_eq] at h1 h2 ⊢
    exact lt_trans h1 h2
  · intro h1 h2
    simp only [Name.ltName, decide_eq_false_iff_not] at h1 h2
    simp only [Name.eqName, beq_iff_eq]
    exact le_antisymm (le_of_not_lt h2) (le_of_not_lt h1)
  · rcases lt_trichotomy (a.sort_str cs) (b.sort_str cs) with h | h | h
    · exact Or.inl (by simp [Name.ltName, h])
    · exact Or.inr (Or.inl (by simp [Name.eqName, h]))
    · exact Or.inr (Or.inr (by simp [Name.ltName, h]))
  · decide

/-- Witness for C6: transitivity applied at three concrete one-part Names. -/
theorem C6_witness :
    Name.ltName false ⟨["a"], [0]⟩ ⟨["c"], [0]⟩ = true := by
  have hab : Name.ltName false ⟨["a"], [0]⟩ ⟨["b"], [0]⟩ = true := by
    have h1 : Name.sort_str false ⟨["a"], [0]⟩ = "a" := by decide
    have h2 : Name.sort_str false ⟨["b"], [0]⟩ = "b" := by decide
    simp only [Name.ltName, decide_eq_true_eq, h1, h2]
    exact String.lt_iff_toList_lt.mpr (by decide)
  have hbc : Name.ltName false ⟨["b"], [0]⟩ ⟨["c"], [0]⟩ = true := by
    have h1 : Name.sort_str false ⟨["b"], [0]⟩ = "b" := by decide
    have h2 : Name.sort_str false ⟨["c"], [0]⟩ = "c" := by decide
    simp only [Name.ltName, decide_eq_true_eq, h1, h2]
    exact String.lt_iff_toList_lt.mpr (by decide)
  exact (C6_name_total_order false ⟨["a"], [0]⟩ ⟨["b"], [0]⟩
    ⟨["c"], [0]⟩).2.2.2.1 hab hbc

/-- `create_need` on the module registry accepts the baseline Food need. -/
lemma create_need_food :
    create_need needFactory_registered_needs .PHYSIOLOGICAL "Food" .DEFAULT
      = .ok ⟨.PHYSIOLOGICAL, .DEFAULT, "FOOD"⟩ := rfl

/-- `create_need` on the module registry accepts the baseline Drink need. -/
lemma create_need_drink :
    create_need needFactory_registered_needs .PHYSIOLOGICAL "Drink" .DEFAULT
      = .ok ⟨.PHYSIOLOGICAL, .DEFAULT, "DRINK"⟩ := rfl

/-- Claim C8 (confirmed): whenever every raw draw from the `3..18` table is
in range (which `random.choices` over that population guarantees), assembly
succeeds and the resulting Person's stats list has exactly the 8 fixed stat
types as keys, every value in `3..18` (the compressed sub-range `6..16` is
inside it), and its demands hold exactly the two baseline PHYSIOLOGICAL
needs, Food and Drink, and nothing in any other category. -/
theorem C8_assembly_invariants (nm : Name)
    (raw roll : Person.STAT_TYPES → Nat)
    (hraw : ∀ s, 3 ≤ raw s ∧ raw s ≤ 18) :
    ∃ p : Person, assemble_person nm raw roll = .ok p
      ∧ p.stats.map Prod.fst = Person.stat_types_list
      ∧ Person.stat_types_list.length = 8
      ∧ (∀ pr ∈ p.stats, 3 ≤ pr.2 ∧ pr.2 ≤ 18)
      ∧ p.demands .PHYSIOLOGICAL
          = [⟨.PHYSIOLOGICAL, .DEFAULT, "FOOD"⟩,
             ⟨.PHYSIOLOGICAL, .DEFAULT, "DRINK"⟩]
      ∧ (p.demands .PHYSIOLOGICAL).length = 2
      ∧ (∀ t, t ≠ .PHYSIOLOGICAL → p.demands t = []) := by
  refine ⟨_, rfl, rfl, rfl, ?_, rfl, rfl, ?_⟩
  · intro pr hpr
    obtain ⟨s, _, rfl⟩ := List.mem_map.mp hpr
    exact gen_stat_value_in_range s (roll s) (hraw s).1 (hraw s).2
  · intro t ht
    simp [Person.mkDefault, demands_append, empty_demands, ht]

/-- Witness for C8, at a concrete name with all raws `10` and all rolls `1`. -/
theorem C8_witness :
    ∃ p : Person,
      assemble_person (Name.init ["Ana"] none) (fun _ => 10) (fun _ => 1)
          = .ok p
      ∧ p.stats.map Prod.fst = Person.stat_types_list
      ∧ Person.stat_types_list.length = 8
      ∧ (∀ pr ∈ p.stats, 3 ≤ pr.2 ∧ pr.2 ≤ 18)
      ∧ p.demands .PHYSIOLOGICAL
          = [⟨.PHYSIOLOGICAL, .DEFAULT, "FOOD"⟩,
             ⟨.PHYSIOLOGICAL, .DEFAULT, "DRINK"⟩]
      ∧ (p.demands .PHYSIOLOGICAL).length = 2
      ∧ (∀ t, t ≠ .PHYSIOLOGICAL → p.demands t = []) :=
  C8_assembly_invariants (Name.init ["Ana"] none) (fun _ => 10) (fun _ => 1)
    (fun _ => ⟨by norm_num, by norm_num⟩)
